import Mathlib

/-!
Verification of `ai_edge_torch/generative/utilities/verifier.py`.

Shallow embedding conventions:
* a logit vector (one row of the vocabulary axis) is a `List ℚ`
  (float values are modelled as exact rationals);
* a token id is an `ℤ` (Python int);
* a batched tensor of token ids (shape `[batch, seq]`) is a
  `List (List ℤ)`; all functions in the source run with batch size 1
  and read row 0;
* fallible tensor indexing / slice assignment is modelled with `Option`
  (`none` = the Python call raises instead of returning a value).

The reauthored model (built with the ai_edge_torch Generative API),
the original transformers model, the tokenizer, and the KV cache are
external to the file under verification; they are kept abstract as
structures of functions with exactly the interface the verifier uses.
-/

namespace AIEdgeTorch

/-- A logit vector over the vocabulary, e.g. `logits[0, i, :]`. -/
abbrev Logits := List ℚ

/-- Python / torch indexing `l[i]` for 1-d structures: a negative index
`i` counts from the end (`l[-1]` is the last element); an index out of
range raises (`none`). -/
def pyGet {α : Type} (l : List α) (i : ℤ) : Option α :=
  if i < 0 then
    if 0 ≤ (l.length : ℤ) + i then l.get? ((l.length : ℤ) + i).toNat else none
  else
    l.get? i.toNat

/-- `torch.argmax` on a 1-d tensor: index of the maximal value, the first
occurrence when the maximum is attained several times.  Helper carrying the
best value seen, the index of the next element, and the best index so far. -/
def argmaxFrom : List ℚ → ℚ → ℕ → ℕ → ℕ
  | [], _, _, best => best
  | x :: xs, bestVal, idx, best =>
      if bestVal < x then argmaxFrom xs x (idx + 1) idx
      else argmaxFrom xs bestVal (idx + 1) best

/-- `torch.argmax` on a 1-d tensor (`logits[0][-1].argmax().item()`).
Junk value `0` on the empty vector (where torch would raise). -/
def argmax : List ℚ → ℕ
  | [] => 0
  | x :: xs => argmaxFrom xs x 1 0

/-- `logits[0][-1]`: the logit vector at the last position of row 0.
Junk value `[]` when the model returned no positions (where Python
indexing would raise). -/
def lastLogits (l : List Logits) : Logits :=
  l.getLastD []

/-- A model built with the ai_edge_torch Generative API, abstracted to the
interface the verifier uses.  `C` is the (opaque) type of the KV cache.

* `cacheFromConfig` models `kv_utils.KVCache.from_model_config(model.config)`:
  a fresh cache built from the model's configuration (the cache itself lives
  outside the verified file; per the spec it is "a mutable container of
  per-layer attention state" constructed from the model configuration, and
  the verifier only constructs it and threads it through calls).
* `forward tokens input_pos kv_cache` models
  `model.forward(tokens, input_pos, kv_cache)` on a batch of one row,
  returning `output["logits"]` (row 0: one logit vector per position)
  and `output["kv_cache"]`. -/
structure Model (C : Type) where
  cacheFromConfig : C
  forward : List ℤ → List ℕ → C → List Logits × C

/-- An original model loaded with the `transformers` package, abstracted to
the interface the verifier uses.

* `forward tokens` models `original_model.forward(tokens)` on a batch of one
  row, returning `outputs.logits[0]` (one logit vector per position).
* `generate tokens` models `original_model.generate(prompt_tokens)[0]`:
  row 0 of the model's own generation for a batch-of-one prompt. -/
structure HFModel where
  forward : List ℤ → List Logits
  generate : List ℤ → List ℤ

/-- A tokenizer, abstracted to the two methods the verifier uses:
`tokenizer.encode(prompts, return_tensors="pt")` (row 0 of the `[1, n]`
result) and `tokenizer.decode(token_ids)`. -/
structure Tokenizer where
  encode : String → List ℤ
  decode : List ℤ → String

/-- `verifier.forward(model, tokens, kv_cache)`:
`input_pos = torch.arange(0, tokens.shape[1])`, then
`model.forward(tokens, input_pos, kv_cache)`, returning the logits and the
updated KV cache. -/
def forward {C : Type} (model : Model C) (tokens : List ℤ) (kv_cache : C) :
    List Logits × C :=
  model.forward tokens (List.range tokens.length) kv_cache

/-- One iteration of the loop body of `verifier.generate`:
`logits, kv_cache = forward(model, torch.tensor([input_ids]), kv_cache)`;
`generated_token = logits[0][-1].argmax().item()`;
`input_ids.append(generated_token)`. -/
def genStep {C : Type} (model : Model C) (st : List ℤ × C) : List ℤ × C :=
  let out := forward model st.1 st.2
  (st.1 ++ [((argmax (lastLogits out.1) : ℕ) : ℤ)], out.2)

/-- The loop of `verifier.generate` acting on row 0 of the prompts:
`input_ids = prompts[0].tolist()`;
`kv_cache = kv_utils.KVCache.from_model_config(model.config)`;
`for _ in range(response_len - len(input_ids)): ...`. -/
def generateRow {C : Type} (model : Model C) (row : List ℤ)
    (response_len : ℕ) : List ℤ × C :=
  (List.range (response_len - row.length)).foldl
    (fun st _ => genStep model st) (row, model.cacheFromConfig)

/-- `verifier.generate(model, prompts, response_len)`: reads `prompts[0]`
(raises on an empty batch, hence `none`), runs the decode loop, and returns
`torch.tensor([input_ids])` — a batch of exactly one row. -/
def generate {C : Type} (model : Model C) (prompts : List (List ℤ))
    (response_len : ℕ) : Option (List (List ℤ)) :=
  match prompts with
  | [] => none
  | row :: _ => some [(generateRow model row response_len).1]

/-- The padded token buffer of `verify_with_input_ids`:
`tokens = torch.full((1, kv_cache_max_len), 0, dtype=torch.long)` followed by
`tokens[0, :input_ids_len] = input_ids` (row 0; well defined only when
`input_ids.length ≤ kv_cache_max_len`, which the caller checks). -/
def paddedTokens (input_ids : List ℤ) (kv_cache_max_len : ℕ) : List ℤ :=
  input_ids ++ List.replicate (kv_cache_max_len - input_ids.length) 0

/-- `torch.allclose`'s default relative tolerance `rtol = 1e-05`. -/
def rtolDefault : ℚ := 1 / 100000

/-- Absolute value on ℚ, written out so that it evaluates by kernel
reduction. -/
def ratAbs (x : ℚ) : ℚ :=
  if x < 0 then -x else x

/-- The element-wise test of `torch.allclose(input, other, rtol, atol)`:
`|input - other| ≤ atol + rtol * |other|`. -/
def closeAt (rtol atol x y : ℚ) : Bool :=
  decide (ratAbs (x - y) ≤ atol + rtol * ratAbs y)

/-- `torch.allclose(a, b, rtol, atol)` on 1-d tensors: element-wise closeness
after broadcasting; shapes that are neither equal nor broadcastable (one side
of length 1) raise (`none`). -/
def allclose (a b : Logits) (rtol atol : ℚ) : Option Bool :=
  if a.length = b.length then
    some ((a.zip b).all fun p => closeAt rtol atol p.1 p.2)
  else if a.length = 1 then
    some (b.all fun y => closeAt rtol atol a.headI y)
  else if b.length = 1 then
    some (a.all fun x => closeAt rtol atol x b.headI)
  else
    none

/-- `verifier.verify_with_input_ids(original_model, reauthored_model,
input_ids, kv_cache_max_len, atol)`:

* builds the zero-filled buffer and writes `input_ids` at its start
  (the slice assignment raises when the input is longer than the buffer,
  hence `none`);
* `logits_original = original_model.forward(tokens).logits[0, input_ids_len - 1, :]`;
* `logits_reauthored = forward(reauthored_model, tokens,
  KVCache.from_model_config(reauthored_model.config))[0][0, input_ids_len - 1, :]`;
* returns `torch.allclose(logits_original, logits_reauthored, atol=atol)`
  (with torch's default `rtol = 1e-05`). -/
def verify_with_input_ids {C : Type} (original_model : HFModel)
    (reauthored_model : Model C) (input_ids : List ℤ)
    (kv_cache_max_len : ℕ) (atol : ℚ) : Option Bool :=
  if input_ids.length ≤ kv_cache_max_len then
    match pyGet (original_model.forward (paddedTokens input_ids kv_cache_max_len))
        ((input_ids.length : ℤ) - 1) with
    | none => none
    | some logits_original =>
      match pyGet (forward reauthored_model
          (paddedTokens input_ids kv_cache_max_len)
          reauthored_model.cacheFromConfig).1 ((input_ids.length : ℤ) - 1) with
      | none => none
      | some logits_reauthored =>
          allclose logits_original logits_reauthored rtolDefault atol
  else
    none

/-- `verifier.verify_model_with_prompts(original_model, reauthored_model,
tokenizer, prompts)`: encodes the prompt, generates with the original model,
decodes it, generates the same total length with `generate`, decodes that,
and compares the two strings for exact equality. -/
def verify_model_with_prompts {C : Type} (original_model : HFModel)
    (reauthored_model : Model C) (tokenizer : Tokenizer) (prompts : String) :
    Option Bool :=
  let prompt_tokens := tokenizer.encode prompts
  let outputs_original := original_model.generate prompt_tokens
  let response_original := tokenizer.decode outputs_original
  let generate_len := outputs_original.length
  match generate reauthored_model [prompt_tokens] generate_len with
  | none => none
  | some outputs_reauthored =>
      some (response_original == tokenizer.decode outputs_reauthored.headI)

/-- The console events of `verify_reauthored_transformers` that the claims
talk about, in program order. -/
inductive LogEvent where
  | verifyingInputIds : LogEvent
  | logPASS : LogEvent
  | logFAILED : LogEvent
  | loadingTokenizer : LogEvent
  | verifyingPrompts : LogEvent
deriving DecidableEq

/-- The default `input_ids` of `verify_with_input_ids`:
`torch.from_numpy(np.array([[1, 2, 3, 4]]))`, row 0. -/
def default_input_ids : List ℤ := [1, 2, 3, 4]

/-- `verifier.verify_reauthored_transformers` after the external model /
tokenizer loading (checkpoint resolution and loading are pass-through calls
to external libraries; a loading failure propagates and is out of scope).
It runs `verify_with_input_ids` with the default input ids and
`kv_cache_max_len = 1024`, logs `PASS`/`FAILED`, then loads the tokenizer,
runs `verify_model_with_prompts`, and logs `PASS`/`FAILED` again.  An
exception inside either comparator propagates (`none`). -/
def verify_reauthored_transformers {C : Type} (original_model : HFModel)
    (reauthored_model : Model C) (tokenizer : Tokenizer) (prompts : String)
    (atol : ℚ) : Option (List LogEvent) :=
  match verify_with_input_ids original_model reauthored_model
      default_input_ids 1024 atol with
  | none => none
  | some b1 =>
    match verify_model_with_prompts original_model reauthored_model
        tokenizer prompts with
    | none => none
    | some b2 =>
        some [LogEvent.verifyingInputIds,
              if b1 then LogEvent.logPASS else LogEvent.logFAILED,
              LogEvent.loadingTokenizer,
              LogEvent.verifyingPrompts,
              if b2 then LogEvent.logPASS else LogEvent.logFAILED]

/-! Concrete instances used to evaluate the statements at explicit inputs. -/

/-- A model (Generative API side) whose logits are all zero, with a trivial
cache. -/
def unitModel : Model Unit where
  cacheFromConfig := ()
  forward := fun toks _ _ => (List.replicate toks.length [(0 : ℚ)], ())

/-- An original model whose logits are all zero and whose generation echoes
the prompt. -/
def unitHF : HFModel where
  forward := fun toks => List.replicate toks.length [(0 : ℚ)]
  generate := fun t => t

/-- An original model whose logits are all one (so that it disagrees with
`unitModel`) and whose generation echoes the prompt. -/
def mismatchHF : HFModel where
  forward := fun toks => List.replicate toks.length [(1 : ℚ)]
  generate := fun t => t

/-- A tokenizer producing one fixed token and a fixed decoded string. -/
def unitTokenizer : Tokenizer where
  encode := fun _ => [1]
  decode := fun _ => "t"

/-- Original model for the `rtol` counterexample: a single position with a
single logit `1000010`. -/
def cexHF : HFModel where
  forward := fun _ => [[(1000010 : ℚ)]]
  generate := fun t => t

/-- Reauthored model for the `rtol` counterexample: a single position with a
single logit `1000000`. -/
def cexModel : Model Unit where
  cacheFromConfig := ()
  forward := fun _ _ _ => ([[(1000000 : ℚ)]], ())

/-! Helper lemmas about the decode loop. -/

/-- A `foldl` over `List.range n` whose body ignores the list element is an
`n`-fold iteration of the body. -/
theorem foldl_range_ignore {α : Type} (g : α → α) (n : ℕ) (init : α) :
    (List.range n).foldl (fun st _ => g st) init = g^[n] init := by
  induction n with
  | zero => rfl
  | succ n ih =>
      rw [List.range_succ, List.foldl_append]
      simp [ih, Function.iterate_succ_apply']

/-- The token component of one decode step: the current ids with the argmax
of the last position's logits appended. -/
theorem genStep_fst {C : Type} (model : Model C) (st : List ℤ × C) :
    (genStep model st).1 =
      st.1 ++ [((argmax (lastLogits (forward model st.1 st.2).1) : ℕ) : ℤ)] :=
  rfl

/-- The decode loop of `generate` is the iteration of `genStep` starting from
the prompt row and a cache freshly built from the model configuration. -/
theorem generateRow_eq_iterate {C : Type} (model : Model C) (row : List ℤ)
    (response_len : ℕ) :
    generateRow model row response_len =
      (genStep model)^[response_len - row.length] (row, model.cacheFromConfig) :=
  foldl_range_ignore (genStep model) (response_len - row.length)
    (row, model.cacheFromConfig)

/-- Each decode step grows the token sequence by exactly one element. -/
theorem iterate_genStep_length {C : Type} (model : Model C)
    (st : List ℤ × C) (n : ℕ) :
    ((genStep model)^[n] st).1.length = st.1.length + n := by
  induction n with
  | zero => simp
  | succ n ih =>
      rw [Function.iterate_succ_apply', genStep_fst]
      simp [ih]
      omega

/-- Iterating the decode step only appends: the starting ids stay an
unmodified initial segment of the result. -/
theorem iterate_genStep_append {C : Type} (model : Model C)
    (st : List ℤ × C) (n : ℕ) :
    ∃ t, ((genStep model)^[n] st).1 = st.1 ++ t := by
  induction n with
  | zero => exact ⟨[], by simp⟩
  | succ n ih =>
      obtain ⟨t, ht⟩ := ih
      rw [Function.iterate_succ_apply', genStep_fst, ht, List.append_assoc]
      exact ⟨_, rfl⟩

/-- C3: For every model, prompt row, extra batch rows, and target length,
`generate` returns the single row obtained by iterating, `target − prompt`
many times, the step that (a) runs the model on the full current token
sequence with position indices `0..len-1`, (b) takes the last position's
logit vector, (c) appends the index of its maximum value (greedy argmax),
while (d) the KV cache is built exactly once at loop entry from the model's
configuration (`cacheFromConfig`) and thereafter replaced each iteration by
the cache the model returned. -/
theorem generate_loop_shape {C : Type} (model : Model C) (row : List ℤ)
    (rest : List (List ℤ)) (rlen : ℕ) :
    generate model (row :: rest) rlen =
      some [(Nat.iterate
        (fun st : List ℤ × C =>
          (st.1 ++ [((argmax
              ((model.forward st.1 (List.range st.1.length) st.2).1.getLastD [])
              : ℕ) : ℤ)],
           (model.forward st.1 (List.range st.1.length) st.2).2))
        (rlen - row.length) (row, model.cacheFromConfig)).1] := by
  have hstep : (fun st : List ℤ × C =>
      (st.1 ++ [((argmax
          ((model.forward st.1 (List.range st.1.length) st.2).1.getLastD [])
          : ℕ) : ℤ)],
       (model.forward st.1 (List.range st.1.length) st.2).2)) = genStep model := by
    funext st
    rfl
  rw [hstep]
  show some [(generateRow model row rlen).1] = _
  rw [generateRow_eq_iterate]

/-- C4: If the target length is at most the prompt length, zero iterations
run and `generate` returns the prompt row unchanged. -/
theorem generate_short_target_identity {C : Type} (model : Model C)
    (row : List ℤ) (rest : List (List ℤ)) (rlen : ℕ)
    (h : rlen ≤ row.length) :
    generate model (row :: rest) rlen = some [row] := by
  have h0 : rlen - row.length = 0 := Nat.sub_eq_zero_of_le h
  show some [(generateRow model row rlen).1] = some [row]
  rw [generateRow_eq_iterate, h0]
  rfl

/-- Evaluation of C4 at a concrete input: a two-token prompt with target
length 1 is returned unchanged. -/
theorem generate_short_target_identity_witness :
    1 ≤ ([1, 2] : List ℤ).length ∧
      generate unitModel [[1, 2]] 1 = some [[1, 2]] :=
  ⟨by decide, generate_short_target_identity unitModel [1, 2] [] 1 (by decide)⟩

/-- C5: For a target length at least the prompt length, `generate` returns a
row of length exactly the target length, and each decode step grows the
sequence by exactly one token. -/
theorem generate_length_exact {C : Type} (model : Model C) (row : List ℤ)
    (rest : List (List ℤ)) (rlen : ℕ) (h : row.length ≤ rlen) :
    ∃ out, generate model (row :: rest) rlen = some [out] ∧
      out.length = rlen ∧
      ∀ i : ℕ, ((genStep model)^[i + 1] (row, model.cacheFromConfig)).1.length
        = ((genStep model)^[i] (row, model.cacheFromConfig)).1.length + 1 := by
  refine ⟨(generateRow model row rlen).1, rfl, ?_, ?_⟩
  · rw [generateRow_eq_iterate, iterate_genStep_length]
    simpa using Nat.add_sub_cancel' h
  · intro i
    rw [iterate_genStep_length, iterate_genStep_length]
    omega

/-- Evaluation of C5 at a concrete input: a one-token prompt with target
length 3 yields a row of length 3. -/
theorem generate_length_exact_witness :
    ([1] : List ℤ).length ≤ 3 ∧
      ∃ out, generate unitModel [[1]] 3 = some [out] ∧ out.length = 3 ∧
        ∀ i : ℕ,
          ((genStep unitModel)^[i + 1] ([1], unitModel.cacheFromConfig)).1.length
            = ((genStep unitModel)^[i] ([1], unitModel.cacheFromConfig)).1.length
              + 1 :=
  ⟨by decide, generate_length_exact unitModel [1] [] 3 (by decide)⟩

/-- C8: `generate` reads only the first row of its prompts batch and always
returns a batch of exactly one row: any further rows have no effect. -/
theorem generate_uses_first_row_only {C : Type} (model : Model C)
    (row : List ℤ) (rest₁ rest₂ : List (List ℤ)) (rlen : ℕ) :
    ∃ out, generate model (row :: rest₁) rlen = some [out] ∧
      generate model (row :: rest₂) rlen = some [out] :=
  ⟨(generateRow model row rlen).1, rfl, rfl⟩

/-- C9: `generate` preserves the prompt as an unmodified initial segment of
the returned row, and the decode loop only appends: the token sequence after
any later iteration extends the token sequence after any earlier one. -/
theorem generate_preserves_prompt {C : Type} (model : Model C) (row : List ℤ)
    (rest : List (List ℤ)) (rlen : ℕ) (i j : ℕ) (hij : i ≤ j) :
    (∃ t, generate model (row :: rest) rlen = some [row ++ t]) ∧
      ∃ t, ((genStep model)^[j] (row, model.cacheFromConfig)).1
        = ((genStep model)^[i] (row, model.cacheFromConfig)).1 ++ t := by
  constructor
  · obtain ⟨t, ht⟩ := iterate_genStep_append model (row, model.cacheFromConfig)
      (rlen - row.length)
    refine ⟨t, ?_⟩
    show some [(generateRow model row rlen).1] = _
    rw [generateRow_eq_iterate, ht]
  · have hj : (j - i) + i = j := Nat.sub_add_cancel hij
    obtain ⟨t, ht⟩ := iterate_genStep_append model
      ((genStep model)^[i] (row, model.cacheFromConfig)) (j - i)
    refine ⟨t, ?_⟩
    rw [← hj, Function.iterate_add_apply]
    exact ht

/-- Evaluation of C9 at a concrete input: prompt `[1]`, target length 3,
iterations 0 and 2. -/
theorem generate_preserves_prompt_witness :
    (0 : ℕ) ≤ 2 ∧
      ((∃ t, generate unitModel [[1]] 3 = some [[1] ++ t]) ∧
        ∃ t, ((genStep unitModel)^[2] ([1], unitModel.cacheFromConfig)).1
          = ((genStep unitModel)^[0] ([1], unitModel.cacheFromConfig)).1 ++ t) :=
  ⟨by decide, generate_preserves_prompt unitModel [1] [] 3 0 2 (by decide)⟩

/-! Helper lemmas about the single-step comparator. -/

/-- The executable absolute value agrees with Mathlib's. -/
theorem ratAbs_eq_abs (x : ℚ) : ratAbs x = |x| := by
  unfold ratAbs
  rcases lt_or_le x 0 with h | h
  · rw [if_pos h, abs_of_neg h]
  · rw [if_neg (not_lt.mpr h), abs_of_nonneg h]

/-- Python indexing at a nonnegative index is plain list lookup. -/
theorem pyGet_nonneg {α : Type} (l : List α) (i : ℤ) (h0 : 0 ≤ i) :
    pyGet l i = l.get? i.toNat := by
  unfold pyGet
  rw [if_neg (by omega)]

/-- The padded buffer has exactly the KV-cache capacity as its length. -/
theorem paddedTokens_length (input_ids : List ℤ) (K : ℕ)
    (h : input_ids.length ≤ K) : (paddedTokens input_ids K).length = K := by
  simp [paddedTokens]
  omega

/-- When the buffer write and both logit extractions succeed,
`verify_with_input_ids` is exactly `torch.allclose` on the two extracted
logit vectors. -/
theorem verify_with_input_ids_eq_allclose {C : Type} (om : HFModel)
    (rm : Model C) (input_ids : List ℤ) (K : ℕ) (atol : ℚ) (lo lr : Logits)
    (hK : input_ids.length ≤ K)
    (ho : pyGet (om.forward (paddedTokens input_ids K))
      ((input_ids.length : ℤ) - 1) = some lo)
    (hr : pyGet (forward rm (paddedTokens input_ids K) rm.cacheFromConfig).1
      ((input_ids.length : ℤ) - 1) = some lr) :
    verify_with_input_ids om rm input_ids K atol =
      allclose lo lr rtolDefault atol := by
  unfold verify_with_input_ids
  rw [if_pos hK, ho, hr]

/-- `torch.allclose` on two vectors of equal length is the conjunction of
the element-wise tests. -/
theorem allclose_eq_length {a b : Logits} (h : a.length = b.length)
    (r atol : ℚ) :
    allclose a b r atol
      = some ((a.zip b).all fun p => closeAt r atol p.1 p.2) := by
  unfold allclose
  rw [if_pos h]

/-- `torch.allclose` on two singleton vectors is the element-wise test. -/
theorem allclose_single (x y r atol : ℚ) :
    allclose [x] [y] r atol = some (closeAt r atol x y) := by
  simp [allclose]

/-- The element-wise allclose test is monotone in the absolute tolerance. -/
theorem closeAt_mono {r a b x y : ℚ} (hab : a ≤ b)
    (h : closeAt r a x y = true) : closeAt r b x y = true := by
  simp only [closeAt, decide_eq_true_eq] at h ⊢
  linarith

/-- `torch.allclose` is monotone in the absolute tolerance. -/
theorem allclose_mono {x y : Logits} {r a b : ℚ} (hab : a ≤ b)
    (h : allclose x y r a = some true) : allclose x y r b = some true := by
  unfold allclose at h ⊢
  split_ifs at h ⊢ <;>
    · simp only [Option.some.injEq, List.all_eq_true] at h ⊢
      exact fun p hp => closeAt_mono hab (h p hp)

/-- C1 counterexample: with a single in-range input token, capacity 1 and
`atol = 1`, the comparator returns `some true` although the (unique)
element-wise absolute difference between the two extracted logit vectors is
`10`, which is not within `atol`: the claimed "iff every element-wise
absolute difference is within atol" fails, because `torch.allclose` also
grants the default relative slack `rtol * |other|`. -/
theorem verify_with_input_ids_not_pure_atol :
    verify_with_input_ids cexHF cexModel [5] 1 1 = some true ∧
    pyGet (cexHF.forward (paddedTokens [5] 1))
      ((([5] : List ℤ).length : ℤ) - 1) = some [(1000010 : ℚ)] ∧
    pyGet (forward cexModel (paddedTokens [5] 1) cexModel.cacheFromConfig).1
      ((([5] : List ℤ).length : ℤ) - 1) = some [(1000000 : ℚ)] ∧
    ¬ (|(1000010 : ℚ) - 1000000| ≤ 1) := by
  refine ⟨?_, by decide, by decide, ?_⟩
  · rw [verify_with_input_ids_eq_allclose cexHF cexModel [5] 1 1
      [1000010] [1000000] (by decide) (by decide) (by decide), allclose_single]
    norm_num [closeAt, ratAbs, rtolDefault]
  · rw [show (1000010 : ℚ) - 1000000 = 10 by norm_num,
      abs_of_nonneg (by norm_num : (0 : ℚ) ≤ 10)]
    norm_num

/-- C1 (amended): when the input fits the buffer and both extractions
succeed on vectors of equal length, `verify_with_input_ids` returns
`some true` iff every element-wise pair satisfies `torch.allclose`'s
criterion `|original − reauthored| ≤ atol + rtol·|reauthored|`, with
`rtol = 1e-5` the default relative tolerance. -/
theorem verify_with_input_ids_allclose_iff {C : Type} (om : HFModel)
    (rm : Model C) (input_ids : List ℤ) (K : ℕ) (atol : ℚ) (lo lr : Logits)
    (hK : input_ids.length ≤ K)
    (ho : pyGet (om.forward (paddedTokens input_ids K))
      ((input_ids.length : ℤ) - 1) = some lo)
    (hr : pyGet (forward rm (paddedTokens input_ids K) rm.cacheFromConfig).1
      ((input_ids.length : ℤ) - 1) = some lr)
    (hlen : lo.length = lr.length) :
    (verify_with_input_ids om rm input_ids K atol = some true ↔
      ∀ p ∈ lo.zip lr, |p.1 - p.2| ≤ atol + rtolDefault * |p.2|) := by
  rw [verify_with_input_ids_eq_allclose om rm input_ids K atol lo lr hK ho hr]
  unfold allclose
  rw [if_pos hlen]
  simp [closeAt, List.all_eq_true, ratAbs_eq_abs]

/-- Evaluation of C1's amended statement at a concrete input where both
sides hold. -/
theorem verify_with_input_ids_allclose_iff_witness :
    ([5] : List ℤ).length ≤ 1 ∧
    pyGet (unitHF.forward (paddedTokens [5] 1))
      ((([5] : List ℤ).length : ℤ) - 1) = some [(0 : ℚ)] ∧
    pyGet (forward unitModel (paddedTokens [5] 1) unitModel.cacheFromConfig).1
      ((([5] : List ℤ).length : ℤ) - 1) = some [(0 : ℚ)] ∧
    ([(0 : ℚ)].length = [(0 : ℚ)].length) ∧
    (verify_with_input_ids unitHF unitModel [5] 1 (1 / 2) = some true ↔
      ∀ p ∈ ([(0 : ℚ)].zip [(0 : ℚ)]),
        |p.1 - p.2| ≤ 1 / 2 + rtolDefault * |p.2|) :=
  ⟨by decide, by decide, by decide, rfl,
    verify_with_input_ids_allclose_iff unitHF unitModel [5] 1 (1 / 2) [0] [0]
      (by decide) (by decide) (by decide) rfl⟩

/-- C6: for a fixed pair of models and input ids, if the comparator passes
with tolerance `a`, it also passes with every tolerance `b ≥ a`. -/
theorem verify_with_input_ids_atol_mono {C : Type} (om : HFModel)
    (rm : Model C) (input_ids : List ℤ) (K : ℕ) (a b : ℚ) (hab : a ≤ b)
    (h : verify_with_input_ids om rm input_ids K a = some true) :
    verify_with_input_ids om rm input_ids K b = some true := by
  unfold verify_with_input_ids at h ⊢
  split_ifs at h ⊢ with hK
  cases ho : pyGet (om.forward (paddedTokens input_ids K))
      ((input_ids.length : ℤ) - 1) with
  | none =>
      rw [ho] at h
      exact Option.noConfusion h
  | some lo =>
      rw [ho] at h
      cases hr : pyGet (forward rm (paddedTokens input_ids K)
          rm.cacheFromConfig).1 ((input_ids.length : ℤ) - 1) with
      | none =>
          rw [hr] at h
          exact Option.noConfusion h
      | some lr =>
          rw [hr] at h
          exact allclose_mono hab h

/-- Evaluation of C6 at a concrete input: passing with tolerance `1/2`
still passes with tolerance `1`. -/
theorem verify_with_input_ids_atol_mono_witness :
    (1 : ℚ) / 2 ≤ 1 ∧
    verify_with_input_ids unitHF unitModel [5] 1 (1 / 2) = some true ∧
    verify_with_input_ids unitHF unitModel [5] 1 1 = some true := by
  have h : verify_with_input_ids unitHF unitModel [5] 1 (1 / 2) = some true := by
    rw [verify_with_input_ids_eq_allclose unitHF unitModel [5] 1 (1 / 2) [0] [0]
      (by decide) (by decide) (by decide), allclose_single]
    norm_num [closeAt, ratAbs, rtolDefault]
  exact ⟨by norm_num, h,
    verify_with_input_ids_atol_mono unitHF unitModel [5] 1 (1 / 2) 1
      (by norm_num) h⟩

/-- C2: `verify_model_with_prompts` generates from the reauthored model
exactly the total token length the original model's own generation produced
(provided, as for any real `generate`, that the original's output is at
least as long as its prompt), and returns true iff the two decoded strings
are exactly equal — no partial credit. -/
theorem verify_model_with_prompts_spec {C : Type} (om : HFModel)
    (rm : Model C) (tok : Tokenizer) (prompts : String)
    (h : (tok.encode prompts).length ≤ (om.generate (tok.encode prompts)).length) :
    ∃ out : List ℤ,
      generate rm [tok.encode prompts]
        (om.generate (tok.encode prompts)).length = some [out] ∧
      out.length = (om.generate (tok.encode prompts)).length ∧
      (verify_model_with_prompts om rm tok prompts = some true ↔
        tok.decode (om.generate (tok.encode prompts)) = tok.decode out) := by
  refine ⟨(generateRow rm (tok.encode prompts)
    (om.generate (tok.encode prompts)).length).1, rfl, ?_, ?_⟩
  · rw [generateRow_eq_iterate, iterate_genStep_length]
    simpa using Nat.add_sub_cancel' h
  · have hv : verify_model_with_prompts om rm tok prompts
        = some (tok.decode (om.generate (tok.encode prompts))
          == tok.decode ((generateRow rm (tok.encode prompts)
              (om.generate (tok.encode prompts)).length).1)) := rfl
    rw [hv]
    simp

/-- Evaluation of C2 at a concrete input where the two strings agree. -/
theorem verify_model_with_prompts_spec_witness :
    (unitTokenizer.encode "p").length
      ≤ (unitHF.generate (unitTokenizer.encode "p")).length ∧
    ∃ out : List ℤ,
      generate unitModel [unitTokenizer.encode "p"]
        (unitHF.generate (unitTokenizer.encode "p")).length = some [out] ∧
      out.length = (unitHF.generate (unitTokenizer.encode "p")).length ∧
      (verify_model_with_prompts unitHF unitModel unitTokenizer "p" = some true ↔
        unitTokenizer.decode (unitHF.generate (unitTokenizer.encode "p"))
          = unitTokenizer.decode out) :=
  ⟨by decide,
    verify_model_with_prompts_spec unitHF unitModel unitTokenizer "p" (by decide)⟩

/-- C7: whatever boolean each comparator returns, the orchestrator does not
raise: it logs `PASS` or `FAILED` for the single-step check and then — for
either outcome — proceeds to load the tokenizer and run the multi-step
check, logging `PASS` or `FAILED` for it as well, so both checks are
attempted before completing. -/
theorem verify_reauthored_transformers_runs_both_checks {C : Type}
    (om : HFModel) (rm : Model C) (tok : Tokenizer) (prompts : String)
    (atol : ℚ) (b1 b2 : Bool)
    (h1 : verify_with_input_ids om rm default_input_ids 1024 atol = some b1)
    (h2 : verify_model_with_prompts om rm tok prompts = some b2) :
    verify_reauthored_transformers om rm tok prompts atol =
      some [LogEvent.verifyingInputIds,
            if b1 then LogEvent.logPASS else LogEvent.logFAILED,
            LogEvent.loadingTokenizer,
            LogEvent.verifyingPrompts,
            if b2 then LogEvent.logPASS else LogEvent.logFAILED] := by
  unfold verify_reauthored_transformers
  rw [h1, h2]

set_option maxRecDepth 20000 in
/-- Evaluation of C7 at a concrete input where the single-step check FAILS
and the multi-step check still runs and PASSES. -/
theorem verify_reauthored_transformers_runs_both_checks_witness :
    verify_with_input_ids mismatchHF unitModel default_input_ids 1024 (1 / 2)
      = some false ∧
    verify_model_with_prompts mismatchHF unitModel unitTokenizer "p"
      = some true ∧
    verify_reauthored_transformers mismatchHF unitModel unitTokenizer "p"
        (1 / 2) =
      some [LogEvent.verifyingInputIds,
            if false then LogEvent.logPASS else LogEvent.logFAILED,
            LogEvent.loadingTokenizer,
            LogEvent.verifyingPrompts,
            if true then LogEvent.logPASS else LogEvent.logFAILED] := by
  have h1 : verify_with_input_ids mismatchHF unitModel default_input_ids 1024
      (1 / 2) = some false := by
    rw [verify_with_input_ids_eq_allclose mismatchHF unitModel
      default_input_ids 1024 (1 / 2) [1] [0] (by decide) (by decide)
      (by decide), allclose_single]
    norm_num [closeAt, ratAbs, rtolDefault]
  have h2 : verify_model_with_prompts mismatchHF unitModel unitTokenizer "p"
      = some true := by decide
  exact ⟨h1, h2,
    verify_reauthored_transformers_runs_both_checks mismatchHF unitModel
      unitTokenizer "p" (1 / 2) false true h1 h2⟩

/-- C10: under the precondition `1 ≤ input length ≤ kv_cache_max_len` (and
models returning one logit vector per buffer position, all over one
vocabulary), the buffer write and both logit extractions at index
`input length − 1` are in range, so the comparator returns a boolean;
when the input is longer than `kv_cache_max_len`, the buffer assignment is
out of range and the operation fails instead of returning a boolean. -/
theorem verify_with_input_ids_range_safety :
    (∀ (C : Type) (om : HFModel) (rm : Model C) (input_ids : List ℤ)
        (K V : ℕ) (atol : ℚ),
      1 ≤ input_ids.length → input_ids.length ≤ K →
      (om.forward (paddedTokens input_ids K)).length = K →
      ((rm.forward (paddedTokens input_ids K) (List.range K)
          rm.cacheFromConfig).1).length = K →
      (∀ l ∈ om.forward (paddedTokens input_ids K), l.length = V) →
      (∀ l ∈ (rm.forward (paddedTokens input_ids K) (List.range K)
          rm.cacheFromConfig).1, l.length = V) →
      ∃ b, verify_with_input_ids om rm input_ids K atol = some b) ∧
    (∀ (C : Type) (om : HFModel) (rm : Model C) (input_ids : List ℤ)
        (K : ℕ) (atol : ℚ),
      K < input_ids.length →
      verify_with_input_ids om rm input_ids K atol = none) := by
  constructor
  · intro C om rm input_ids K V atol h1 hK hlo hlr hVo hVr
    have htok : (paddedTokens input_ids K).length = K :=
      paddedTokens_length input_ids K hK
    have hfwd : forward rm (paddedTokens input_ids K) rm.cacheFromConfig
        = rm.forward (paddedTokens input_ids K) (List.range K)
            rm.cacheFromConfig := by
      rw [forward, htok]
    have h0 : (0 : ℤ) ≤ (input_ids.length : ℤ) - 1 := by omega
    have hidx : ((input_ids.length : ℤ) - 1).toNat = input_ids.length - 1 := by
      omega
    have hlt_o : input_ids.length - 1
        < (om.forward (paddedTokens input_ids K)).length := by
      rw [hlo]; omega
    have hlt_r : input_ids.length - 1
        < ((rm.forward (paddedTokens input_ids K) (List.range K)
            rm.cacheFromConfig).1).length := by
      rw [hlr]; omega
    have hlen : ((om.forward (paddedTokens input_ids K)).get
          ⟨input_ids.length - 1, hlt_o⟩).length
        = (((rm.forward (paddedTokens input_ids K) (List.range K)
            rm.cacheFromConfig).1).get ⟨input_ids.length - 1, hlt_r⟩).length := by
      rw [hVo _ (List.get_mem _ _ _), hVr _ (List.get_mem _ _ _)]
    unfold verify_with_input_ids
    rw [if_pos hK, hfwd, pyGet_nonneg _ _ h0, pyGet_nonneg _ _ h0, hidx,
      List.get?_eq_get hlt_o, List.get?_eq_get hlt_r]
    exact ⟨_, allclose_eq_length hlen rtolDefault atol⟩
  · intro C om rm input_ids K atol hKlt
    unfold verify_with_input_ids
    rw [if_neg (by omega)]

/-- Evaluation of C10 at concrete inputs: an in-range input returns a
boolean; an input longer than the buffer fails. -/
theorem verify_with_input_ids_range_safety_witness :
    (∃ b, verify_with_input_ids unitHF unitModel [5] 1 0 = some b) ∧
    verify_with_input_ids unitHF unitModel [1, 2] 1 0 = none :=
  ⟨verify_with_input_ids_range_safety.1 Unit unitHF unitModel [5] 1 1 0
      (by decide) (by decide) (by decide) (by decide) (by decide) (by decide),
    verify_with_input_ids_range_safety.2 Unit unitHF unitModel [1, 2] 1 0
      (by decide)⟩

end AIEdgeTorch
